import Mathlib

/-!
Verification of the orchestration layer in `seleniumwire/server.py`
(class `MitmProxy`).  The Python source is shallowly embedded: the
construction sequence of `MitmProxy.__init__` becomes a straight-line
function producing either an error or the constructed state, together
with a trace of the externally visible effects in the order they occur;
`_get_upstream_proxy_args` becomes a pure function over the proxy
configuration returned by the external resolver `get_upstream_proxy`.
Python dictionaries are association lists, Python truthiness is made
explicit, and the `TypeError` raised by CPython when keyword arguments
collide in a call such as `opts.update(ssl_insecure=..., **passthrough)`
is modelled as an explicit duplicate-key check.
-/

namespace SeleniumWire

instance {ε α : Type} [DecidableEq ε] [DecidableEq α] : DecidableEq (Except ε α) :=
  fun a b =>
    match a, b with
    | Except.ok x, Except.ok y =>
        if h : x = y then Decidable.isTrue (by simp [h])
        else Decidable.isFalse (by simp [h])
    | Except.ok _, Except.error _ => Decidable.isFalse (by simp)
    | Except.error _, Except.ok _ => Decidable.isFalse (by simp)
    | Except.error e, Except.error f =>
        if h : e = f then Decidable.isTrue (by simp [h])
        else Decidable.isFalse (by simp [h])

/-- Python values as they occur in the options mapping: booleans,
strings, integers, lists of strings and `None`. -/
inductive PyValue where
  | bool (b : Bool)
  | str (s : String)
  | int (n : Int)
  | list (xs : List String)
  | none
  deriving DecidableEq, Repr

/-- Python truthiness of a `PyValue`. -/
def PyValue.truthy : PyValue → Bool
  | .bool b => b
  | .str s => s ≠ ""
  | .int n => n ≠ 0
  | .list xs => xs ≠ []
  | .none => false

/-- Truthiness of a value that is either absent (`None`) or a Python
string: `None` and the empty string are falsy. -/
def strTruthy : Option String → Bool
  | Option.none => false
  | Option.some s => s ≠ ""

/-- Python `options.get(key, default)` over an association list. -/
def optGet (options : List (String × PyValue)) (key : String) (dflt : PyValue) : PyValue :=
  match options.lookup key with
  | Option.some v => v
  | Option.none => dflt

/-- `DEFAULT_SSL_INSECURE = True` in `server.py`. -/
def DEFAULT_SSL_INSECURE : Bool := true

/-- `DEFAULT_STREAM_WEBSOCKETS = True` in `server.py`. -/
def DEFAULT_STREAM_WEBSOCKETS : Bool := true

/-- `DEFAULT_SUPPRESS_CONNECTION_ERRORS = True` in `server.py`. -/
def DEFAULT_SUPPRESS_CONNECTION_ERRORS : Bool := true

/-- An upstream proxy descriptor as unpacked by
`scheme, username, password, hostport = conf` in
`_get_upstream_proxy_args`.  The username may be absent (`None`) or a
string (possibly empty); the password is only ever formatted into the
auth string. -/
structure ProxyDescriptor where
  scheme : String
  username : Option String
  password : String
  hostport : String
  deriving DecidableEq, Repr

/-- The mapping returned by the external resolver `get_upstream_proxy`:
optional per-scheme descriptors plus the optional
`custom_authorization` and `no_proxy` entries read by
`_get_upstream_proxy_args`. -/
structure ProxyConfig where
  http : Option ProxyDescriptor
  https : Option ProxyDescriptor
  custom_authorization : Option String
  no_proxy : List String
  deriving DecidableEq, Repr

/-- The `args` dictionary built by `_get_upstream_proxy_args`: each
field is present (`some`) exactly when the Python code stores the
corresponding key. -/
structure UpstreamArgs where
  mode : Option String
  upstream_auth : Option String
  upstream_custom_auth : Option String
  no_proxy : Option (List String)
  deriving DecidableEq, Repr

/-- The body of the `if conf:` branch of `_get_upstream_proxy_args`:
build the args from the resolved descriptor `conf` and the surrounding
`proxy_config` mapping. -/
def mkArgs (conf : ProxyDescriptor) (pc : ProxyConfig) : UpstreamArgs :=
  { mode := Option.some ("upstream:" ++ conf.scheme ++ "://" ++ conf.hostport)
    upstream_auth :=
      if strTruthy conf.username then
        Option.some ((conf.username.getD "") ++ ":" ++ conf.password)
      else
        Option.none
    upstream_custom_auth :=
      if strTruthy pc.custom_authorization then pc.custom_authorization else Option.none
    no_proxy :=
      if pc.no_proxy ≠ [] then Option.some pc.no_proxy else Option.none }

/-- The error message of the `ValueError` raised on conflicting
upstream targets. -/
def conflictMsg : String :=
  "Different settings for http and https proxy servers not supported"

/-- `MitmProxy._get_upstream_proxy_args`, embedded over the proxy
configuration returned by the external `get_upstream_proxy`.  Raising
`ValueError` becomes the `Except.error` case. -/
def getUpstreamProxyArgs (pc : ProxyConfig) : Except String UpstreamArgs :=
  match pc.http, pc.https with
  | Option.some hp, Option.some sp =>
      if hp.hostport ≠ sp.hostport then
        Except.error conflictMsg
      else
        Except.ok (mkArgs sp pc)
  | Option.some hp, Option.none => Except.ok (mkArgs hp pc)
  | Option.none, Option.some sp => Except.ok (mkArgs sp pc)
  | Option.none, Option.none =>
      Except.ok { mode := Option.none, upstream_auth := Option.none,
                  upstream_custom_auth := Option.none, no_proxy := Option.none }

/-- Externally visible effects of `MitmProxy.__init__` and
`MitmProxy.shutdown`, in the order the Python code performs them. -/
inductive Event where
  | storageCreate
  | extractCert
  | addonAddDefault
  | addonAddLogger
  | addonAddHandler
  | optsUpdate
  | serverCreate
  | masterShutdown
  | storageCleanup
  deriving DecidableEq, Repr

/-- Errors that can escape `MitmProxy.__init__`: a failure of the
external certificate extraction (`ResourceError`), the `ValueError`
from `_get_upstream_proxy_args`, and the `TypeError` CPython raises
when two keyword arguments of `mitmproxy_opts.update(...)` share a
key. -/
inductive InitError where
  | resourceError
  | configError (msg : String)
  | typeErrorDuplicateKw (key : String)
  deriving DecidableEq, Repr

/-- The explicit keyword arguments of the `mitmproxy_opts.update(...)`
call in `__init__`, as an association list in source order.  `confdir`
is the storage handle's home directory (external), `ssl_insecure` and
`suppress_connection_errors` read the caller options with the module
defaults. -/
def explicitKwargs (host : String) (port : Int) (homeDir : String)
    (options : List (String × PyValue)) : List (String × PyValue) :=
  [("confdir", PyValue.str homeDir),
   ("listen_host", PyValue.str host),
   ("listen_port", PyValue.int port),
   ("ssl_insecure", optGet options "verify_ssl" (PyValue.bool DEFAULT_SSL_INSECURE)),
   ("stream_websockets", PyValue.bool DEFAULT_STREAM_WEBSOCKETS),
   ("suppress_connection_errors",
     optGet options "suppress_connection_errors"
       (PyValue.bool DEFAULT_SUPPRESS_CONNECTION_ERRORS))]

/-- The keyword arguments contributed by `**self._get_upstream_proxy_args()`. -/
def upstreamKwargs (args : UpstreamArgs) : List (String × PyValue) :=
  (match args.mode with
   | Option.some m => [("mode", PyValue.str m)]
   | Option.none => []) ++
  (match args.upstream_auth with
   | Option.some a => [("upstream_auth", PyValue.str a)]
   | Option.none => []) ++
  (match args.upstream_custom_auth with
   | Option.some c => [("upstream_custom_auth", PyValue.str c)]
   | Option.none => []) ++
  (match args.no_proxy with
   | Option.some n => [("no_proxy", PyValue.list n)]
   | Option.none => [])

/-- Python `k.startswith(p)`, modelled over the code points of the two
strings (kernel-reducible, unlike the byte-position loop of the
built-in check). -/
def pyStartsWith (k p : String) : Bool :=
  p.data.isPrefixOf k.data

/-- Python `k[n:]`: drop the first `n` code points. -/
def pyDrop (k : String) (n : Nat) : String :=
  String.mk (k.data.drop n)

/-- The keyword arguments contributed by the pass-through
comprehension `{k[5:]: v for k, v in options.items() if k.startswith('mitm_')}`. -/
def passthroughKwargs (options : List (String × PyValue)) : List (String × PyValue) :=
  (options.filter (fun kv => pyStartsWith kv.1 "mitm_")).map (fun kv => (pyDrop kv.1 5, kv.2))

/-- First key occurring twice in a list of keys, if any. -/
def firstDupKey : List String → Option String
  | [] => Option.none
  | k :: ks => if k ∈ ks then Option.some k else firstDupKey ks

/-- Assemble the full keyword-argument mapping of the
`mitmproxy_opts.update(...)` call.  CPython raises `TypeError: got
multiple values for keyword argument ...` when a key occurs both
explicitly and in a `**` unpacking, or in two `**` unpackings; this is
the `Except.error` case. -/
def buildUpdateKwargs (host : String) (port : Int) (homeDir : String)
    (options : List (String × PyValue)) (args : UpstreamArgs) :
    Except InitError (List (String × PyValue)) :=
  let all := explicitKwargs host port homeDir options ++ upstreamKwargs args ++
    passthroughKwargs options
  match firstDupKey (all.map (fun kv => kv.1)) with
  | Option.some k => Except.error (InitError.typeErrorDuplicateKw k)
  | Option.none => Except.ok all

/-- The state of a constructed `MitmProxy`: the scope list, the engine
option keys set by `update`, and the addon chain in registration
order. -/
structure MitmProxyState where
  scopes : List String
  engineOpts : List (String × PyValue)
  addons : List String
  deriving DecidableEq, Repr

/-- `MitmProxy.__init__`, embedded as a straight-line construction.
Inputs beyond `host`, `port` and the caller `options` stand for the
external collaborators: `homeDir` is the created storage handle's home
directory, `pc` is what `get_upstream_proxy(options)` returns, and
`certFails` tells whether the external `extract_cert_and_key` raises.
The result pairs the outcome with the trace of effects, in source
order: storage creation, certificate extraction, the three addon
registrations, the options update and the proxy-server creation.  No
exception handler exists in the source, so an error propagates with
the trace accumulated so far. -/
def initMitmProxy (host : String) (port : Int)
    (options : List (String × PyValue)) (homeDir : String)
    (pc : ProxyConfig) (certFails : Bool) :
    Except InitError MitmProxyState × List Event :=
  let ev := [Event.storageCreate]
  if certFails then
    (Except.error InitError.resourceError, ev)
  else
    let ev := ev ++ [Event.extractCert, Event.addonAddDefault,
      Event.addonAddLogger, Event.addonAddHandler]
    match getUpstreamProxyArgs pc with
    | Except.error msg => (Except.error (InitError.configError msg), ev)
    | Except.ok args =>
        match buildUpdateKwargs host port homeDir options args with
        | Except.error e => (Except.error e, ev)
        | Except.ok kwargs =>
            let ev := ev ++ [Event.optsUpdate, Event.serverCreate]
            let scopes :=
              if (optGet options "disable_capture" (PyValue.bool false)).truthy then
                ["$^"]
              else
                []
            (Except.ok { scopes := scopes, engineOpts := kwargs,
                         addons := ["default_addons", "SendToLogger",
                                    "InterceptRequestHandler"] }, ev)

/-- `MitmProxy.shutdown`: each call performs `self._master.shutdown()`
then `self.storage.cleanup()`, unconditionally, appending to the event
log. -/
def shutdown (log : List Event) : List Event :=
  log ++ [Event.masterShutdown, Event.storageCleanup]

/-- A proxy configuration with no upstream proxies and no extra fields. -/
def emptyPC : ProxyConfig :=
  { http := Option.none, https := Option.none,
    custom_authorization := Option.none, no_proxy := [] }

/-- The spec's conflicting-target scenario: HTTP proxy at
`proxy.local:8080` and HTTPS proxy at `proxy.local:9090`. -/
def conflictPC : ProxyConfig :=
  { http := Option.some
      { scheme := "http", username := Option.some "u", password := "p",
        hostport := "proxy.local:8080" }
    https := Option.some
      { scheme := "https", username := Option.some "u", password := "p",
        hostport := "proxy.local:9090" }
    custom_authorization := Option.none
    no_proxy := [] }

/-- Claim C1: the code wires the caller's `verify_ssl` value straight
into the engine's `ssl_insecure` option with no negation, so
`verify_ssl=True` yields `ssl_insecure=True` (verification disabled),
`verify_ssl=False` yields `ssl_insecure=False` (verification enabled),
and absence yields the default `ssl_insecure=True`.  This evaluates
the construction at those three inputs, exhibiting the inversion
relative to the documented meaning of `verify_ssl`. -/
theorem C1_ssl_insecure_is_verify_ssl_value :
    ((initMitmProxy "127.0.0.1" 8087 [("verify_ssl", PyValue.bool true)] "home"
        emptyPC false).1.map
      (fun st => st.engineOpts.lookup "ssl_insecure")
      = Except.ok (Option.some (PyValue.bool true))) ∧
    ((initMitmProxy "127.0.0.1" 8087 [("verify_ssl", PyValue.bool false)] "home"
        emptyPC false).1.map
      (fun st => st.engineOpts.lookup "ssl_insecure")
      = Except.ok (Option.some (PyValue.bool false))) ∧
    ((initMitmProxy "127.0.0.1" 8087 [] "home" emptyPC false).1.map
      (fun st => st.engineOpts.lookup "ssl_insecure")
      = Except.ok (Option.some (PyValue.bool true))) := by
  refine ⟨by decide, by decide, by decide⟩

/-- Claim C2: whenever both upstream descriptors are present with
different hostports, construction returns the configuration error
(the `ValueError` of `_get_upstream_proxy_args`) and no orchestrator
state, synchronously at construction time. -/
theorem C2_conflicting_hostports_fail_construction
    (host : String) (port : Int) (options : List (String × PyValue))
    (homeDir : String) (pc : ProxyConfig) (hp sp : ProxyDescriptor)
    (hhttp : pc.http = Option.some hp) (hhttps : pc.https = Option.some sp)
    (hne : hp.hostport ≠ sp.hostport) :
    (initMitmProxy host port options homeDir pc false).1 =
      Except.error (InitError.configError conflictMsg) := by
  simp [initMitmProxy, getUpstreamProxyArgs, hhttp, hhttps, hne]

/-- Witness for C2 at the spec's scenario inputs. -/
theorem C2_witness :
    (initMitmProxy "127.0.0.1" 8087 [] "home" conflictPC false).1 =
      Except.error (InitError.configError conflictMsg) :=
  C2_conflicting_hostports_fail_construction "127.0.0.1" 8087 [] "home"
    conflictPC _ _ rfl rfl (by decide)

/-- Counterexample to claim C3: with the conflicting-proxy
configuration, construction fails after the storage handle was
created, yet no `cleanup()` call appears in the trace — the storage
handle is left uncleaned when the error propagates. -/
theorem C3_counterexample :
    (initMitmProxy "127.0.0.1" 8087 [] "home" conflictPC false).1 =
      Except.error (InitError.configError conflictMsg) ∧
    Event.storageCreate ∈ (initMitmProxy "127.0.0.1" 8087 [] "home" conflictPC false).2 ∧
    Event.storageCleanup ∉ (initMitmProxy "127.0.0.1" 8087 [] "home" conflictPC false).2 := by
  decide

/-- Claim C3 as amended: `__init__` has no exception handler, so no
construction path — successful or failing, including certificate
extraction failure and the conflicting-upstream configuration error —
ever invokes `cleanup()` on the storage handle. -/
theorem C3_amended_no_cleanup_on_any_construction_path
    (host : String) (port : Int) (options : List (String × PyValue))
    (homeDir : String) (pc : ProxyConfig) (certFails : Bool) :
    Event.storageCleanup ∉ (initMitmProxy host port options homeDir pc certFails).2 := by
  simp only [initMitmProxy]
  split
  · simp
  · split
    · simp
    · split
      · simp
      · simp

/-- Counterexample to claim C4: two `shutdown()` calls record two
`cleanup()` invocations on the storage handle, not one. -/
theorem C4_counterexample :
    (shutdown (shutdown [])).count Event.storageCleanup = 2 ∧ (2 : Nat) ≠ 1 := by
  decide

/-- Claim C4 as amended: each `shutdown()` call unconditionally
performs a master shutdown followed by a storage `cleanup()`, so two
sequential calls add exactly two `cleanup()` invocations (one per
call); neither call branches or guards, so no error is raised by the
orchestrator itself. -/
theorem C4_amended_each_shutdown_cleans_up_once (log : List Event) :
    (shutdown (shutdown log)).count Event.storageCleanup =
      log.count Event.storageCleanup + 2 ∧
    (shutdown log).count Event.storageCleanup =
      log.count Event.storageCleanup + 1 := by
  constructor <;> simp [shutdown, List.count_append]

/-- Counterexample to claim C5: a pass-through option whose stripped
key collides with a default engine-configuration key does not override
the default — construction fails with CPython's duplicate-keyword
`TypeError`.  Here `mitm_ssl_insecure` strips to `ssl_insecure`, which
`update` also receives explicitly. -/
theorem C5_counterexample :
    (initMitmProxy "127.0.0.1" 8087 [("mitm_ssl_insecure", PyValue.bool false)]
        "home" emptyPC false).1 =
      Except.error (InitError.typeErrorDuplicateKw "ssl_insecure") := by
  decide

/-- Claim C5 as amended: every option whose key carries the `mitm_`
prefix is forwarded to the engine configuration with the prefix
stripped and the value unchanged, provided no stripped key collides
with the explicit or upstream keyword arguments; when a collision
exists, construction fails with a duplicate-keyword `TypeError`
rather than overriding the default. -/
theorem C5_amended_passthrough_forwarding
    (host : String) (port : Int) (homeDir : String)
    (options : List (String × PyValue)) (pc : ProxyConfig) (args : UpstreamArgs)
    (k : String) (v : PyValue)
    (hargs : getUpstreamProxyArgs pc = Except.ok args)
    (hmem : (k, v) ∈ options) (hk : pyStartsWith k "mitm_" = true) :
    (firstDupKey ((explicitKwargs host port homeDir options ++ upstreamKwargs args ++
          passthroughKwargs options).map (fun kv => kv.1)) = Option.none →
       ∃ st, (initMitmProxy host port options homeDir pc false).1 = Except.ok st ∧
         (pyDrop k 5, v) ∈ st.engineOpts) ∧
    (∀ d, firstDupKey ((explicitKwargs host port homeDir options ++ upstreamKwargs args ++
          passthroughKwargs options).map (fun kv => kv.1)) = Option.some d →
       (initMitmProxy host port options homeDir pc false).1 =
         Except.error (InitError.typeErrorDuplicateKw d)) := by
  constructor
  · intro hnodup
    have hbuild : buildUpdateKwargs host port homeDir options args =
        Except.ok (explicitKwargs host port homeDir options ++ upstreamKwargs args ++
          passthroughKwargs options) := by
      simp only [buildUpdateKwargs, hnodup]
    have hres : (initMitmProxy host port options homeDir pc false).1 =
        Except.ok
          { scopes :=
              if (optGet options "disable_capture" (PyValue.bool false)).truthy then ["$^"]
              else []
            engineOpts := explicitKwargs host port homeDir options ++ upstreamKwargs args ++
              passthroughKwargs options
            addons := ["default_addons", "SendToLogger", "InterceptRequestHandler"] } := by
      simp [initMitmProxy, hargs, hbuild]
    refine ⟨_, hres, ?_⟩
    have h1 : (pyDrop k 5, v) ∈ passthroughKwargs options := by
      simp only [passthroughKwargs, List.mem_map]
      refine ⟨(k, v), ?_, rfl⟩
      simp [List.mem_filter, hmem, hk]
    exact List.mem_append_right _ h1
  · intro d hd
    have hbuild : buildUpdateKwargs host port homeDir options args =
        Except.error (InitError.typeErrorDuplicateKw d) := by
      simp only [buildUpdateKwargs, hd]
    simp [initMitmProxy, hargs, hbuild]

/-- Witness for C5: `mitm_foo` is forwarded as `foo` with its value
unchanged when nothing collides. -/
theorem C5_witness :
    ∃ st, (initMitmProxy "127.0.0.1" 8087 [("mitm_foo", PyValue.str "x")]
        "home" emptyPC false).1 = Except.ok st ∧
      (pyDrop "mitm_foo" 5, PyValue.str "x") ∈ st.engineOpts :=
  (C5_amended_passthrough_forwarding "127.0.0.1" 8087 "home"
      [("mitm_foo", PyValue.str "x")] emptyPC
      { mode := Option.none, upstream_auth := Option.none,
        upstream_custom_auth := Option.none, no_proxy := Option.none }
      "mitm_foo" (PyValue.str "x") rfl (by decide) (by decide)).1 (by decide)

/-- Counterexample to claim C6: at the spec's conflicting-target
scenario the configuration error is raised, yet the default addons,
the log bridge and the interception handler have all already been
registered — `__init__` registers addons before it resolves the
upstream proxy. -/
theorem C6_counterexample :
    (initMitmProxy "127.0.0.1" 8087 [] "home" conflictPC false).1 =
      Except.error (InitError.configError conflictMsg) ∧
    Event.addonAddDefault ∈ (initMitmProxy "127.0.0.1" 8087 [] "home" conflictPC false).2 ∧
    Event.addonAddLogger ∈ (initMitmProxy "127.0.0.1" 8087 [] "home" conflictPC false).2 ∧
    Event.addonAddHandler ∈ (initMitmProxy "127.0.0.1" 8087 [] "home" conflictPC false).2 := by
  decide

/-- Claim C6 as amended: when construction fails with the
conflicting-upstream configuration error, the default addons, the log
bridge and the interception handler have already been registered
(registration precedes upstream resolution); the proxy server itself,
however, is never created. -/
theorem C6_amended_addons_precede_config_error
    (host : String) (port : Int) (options : List (String × PyValue))
    (homeDir : String) (pc : ProxyConfig) (hp sp : ProxyDescriptor)
    (hhttp : pc.http = Option.some hp) (hhttps : pc.https = Option.some sp)
    (hne : hp.hostport ≠ sp.hostport) :
    (initMitmProxy host port options homeDir pc false).1 =
      Except.error (InitError.configError conflictMsg) ∧
    Event.addonAddDefault ∈ (initMitmProxy host port options homeDir pc false).2 ∧
    Event.addonAddLogger ∈ (initMitmProxy host port options homeDir pc false).2 ∧
    Event.addonAddHandler ∈ (initMitmProxy host port options homeDir pc false).2 ∧
    Event.serverCreate ∉ (initMitmProxy host port options homeDir pc false).2 := by
  have htr : initMitmProxy host port options homeDir pc false =
      (Except.error (InitError.configError conflictMsg),
       [Event.storageCreate, Event.extractCert, Event.addonAddDefault,
        Event.addonAddLogger, Event.addonAddHandler]) := by
    simp [initMitmProxy, getUpstreamProxyArgs, hhttp, hhttps, hne]
  rw [htr]
  simp

/-- Witness for C6 at the spec's scenario inputs. -/
theorem C6_witness :
    (initMitmProxy "0.0.0.0" 9950 [] "dir" conflictPC false).1 =
      Except.error (InitError.configError conflictMsg) ∧
    Event.addonAddDefault ∈ (initMitmProxy "0.0.0.0" 9950 [] "dir" conflictPC false).2 ∧
    Event.addonAddLogger ∈ (initMitmProxy "0.0.0.0" 9950 [] "dir" conflictPC false).2 ∧
    Event.addonAddHandler ∈ (initMitmProxy "0.0.0.0" 9950 [] "dir" conflictPC false).2 ∧
    Event.serverCreate ∉ (initMitmProxy "0.0.0.0" 9950 [] "dir" conflictPC false).2 :=
  C6_amended_addons_precede_config_error "0.0.0.0" 9950 [] "dir" conflictPC _ _
    rfl rfl (by decide)

/-- Claim C7: with both descriptors sharing a hostport, resolution
succeeds with the HTTPS descriptor: the mode string embeds its scheme
and host:port, and the auth string is built from its username and
password. -/
theorem C7_equal_hostport_https_wins
    (pc : ProxyConfig) (hp sp : ProxyDescriptor) (u : String)
    (hhttp : pc.http = Option.some hp) (hhttps : pc.https = Option.some sp)
    (heq : hp.hostport = sp.hostport) :
    getUpstreamProxyArgs pc = Except.ok (mkArgs sp pc) ∧
    (mkArgs sp pc).mode = Option.some ("upstream:" ++ sp.scheme ++ "://" ++ sp.hostport) ∧
    (sp.username = Option.some u → u ≠ "" →
      (mkArgs sp pc).upstream_auth = Option.some (u ++ ":" ++ sp.password)) := by
  refine ⟨?_, rfl, ?_⟩
  · simp [getUpstreamProxyArgs, hhttp, hhttps, heq]
  · intro hu hne
    simp [mkArgs, strTruthy, hu, hne]

/-- The HTTP side of the equal-hostport pair used as concrete
witness input. -/
def httpD7 : ProxyDescriptor :=
  { scheme := "http", username := Option.some "u1", password := "p1",
    hostport := "proxy.local:8080" }

/-- The HTTPS side of the equal-hostport pair used as concrete
witness input. -/
def httpsD7 : ProxyDescriptor :=
  { scheme := "https", username := Option.some "u2", password := "p2",
    hostport := "proxy.local:8080" }

/-- A proxy configuration carrying both descriptors of the
equal-hostport pair. -/
def pc7 : ProxyConfig :=
  { http := Option.some httpD7, https := Option.some httpsD7,
    custom_authorization := Option.none, no_proxy := [] }

/-- Witness for C7 at the equal-hostport pair. -/
theorem C7_witness :
    getUpstreamProxyArgs pc7 = Except.ok (mkArgs httpsD7 pc7) ∧
    (mkArgs httpsD7 pc7).mode =
      Option.some ("upstream:" ++ httpsD7.scheme ++ "://" ++ httpsD7.hostport) ∧
    (mkArgs httpsD7 pc7).upstream_auth =
      Option.some ("u2" ++ ":" ++ httpsD7.password) := by
  obtain ⟨h1, h2, h3⟩ :=
    C7_equal_hostport_https_wins pc7 httpD7 httpsD7 "u2" rfl rfl rfl
  exact ⟨h1, h2, h3 rfl (by decide)⟩

/-- Claim C8: with exactly one descriptor present, resolution uses it;
with neither present, the resolved engine configuration carries no
upstream field at all (direct mode), whatever the ambient
`custom_authorization` or `no_proxy` entries hold. -/
theorem C8_single_descriptor_or_direct (pc : ProxyConfig) (d : ProxyDescriptor) :
    ((pc.http = Option.some d ∧ pc.https = Option.none) ∨
       (pc.http = Option.none ∧ pc.https = Option.some d) →
      getUpstreamProxyArgs pc = Except.ok (mkArgs d pc)) ∧
    (pc.http = Option.none → pc.https = Option.none →
      getUpstreamProxyArgs pc = Except.ok
        { mode := Option.none, upstream_auth := Option.none,
          upstream_custom_auth := Option.none, no_proxy := Option.none }) := by
  constructor
  · rintro (⟨h1, h2⟩ | ⟨h1, h2⟩) <;> simp [getUpstreamProxyArgs, h1, h2]
  · intro h1 h2
    simp [getUpstreamProxyArgs, h1, h2]

/-- The lone descriptor used as concrete witness input for C8. -/
def soloD : ProxyDescriptor :=
  { scheme := "http", username := Option.none, password := "",
    hostport := "proxy.local:3128" }

/-- A proxy configuration carrying only the HTTP descriptor. -/
def soloPC : ProxyConfig :=
  { http := Option.some soloD, https := Option.none,
    custom_authorization := Option.none, no_proxy := [] }

/-- Witness for C8: a lone HTTP descriptor is used, and the empty
configuration resolves to the all-absent direct mode. -/
theorem C8_witness :
    getUpstreamProxyArgs soloPC = Except.ok (mkArgs soloD soloPC) ∧
    getUpstreamProxyArgs emptyPC = Except.ok
      { mode := Option.none, upstream_auth := Option.none,
        upstream_custom_auth := Option.none, no_proxy := Option.none } :=
  ⟨(C8_single_descriptor_or_direct soloPC soloD).1 (Or.inl ⟨rfl, rfl⟩),
   (C8_single_descriptor_or_direct emptyPC soloD).2 rfl rfl⟩

/-- Claim C9: whenever construction succeeds, the scope list is the
empty capture-everything list, except that a truthy `disable_capture`
option makes it the single never-matching pattern. -/
theorem C9_scope_list
    (host : String) (port : Int) (options : List (String × PyValue))
    (homeDir : String) (pc : ProxyConfig) (certFails : Bool) (st : MitmProxyState)
    (h : (initMitmProxy host port options homeDir pc certFails).1 = Except.ok st) :
    st.scopes =
      if (optGet options "disable_capture" (PyValue.bool false)).truthy then ["$^"]
      else [] := by
  simp only [initMitmProxy] at h
  split at h
  · simp at h
  · split at h
    · simp at h
    · split at h
      · simp at h
      · simp only [Except.ok.injEq] at h
        rw [← h]

/-- Witness for C9: `disable_capture=True` yields the never-matching
scope list, its absence yields the empty list. -/
theorem C9_witness :
    (∃ st, (initMitmProxy "127.0.0.1" 8087 [("disable_capture", PyValue.bool true)]
        "home" emptyPC false).1 = Except.ok st ∧ st.scopes = ["$^"]) ∧
    (∃ st, (initMitmProxy "127.0.0.1" 8087 [] "home" emptyPC false).1 =
        Except.ok st ∧ st.scopes = []) := by
  constructor
  · obtain ⟨st, hst⟩ : ∃ st,
        (initMitmProxy "127.0.0.1" 8087 [("disable_capture", PyValue.bool true)]
          "home" emptyPC false).1 = Except.ok st := ⟨_, rfl⟩
    refine ⟨st, hst, ?_⟩
    rw [C9_scope_list "127.0.0.1" 8087 [("disable_capture", PyValue.bool true)]
      "home" emptyPC false st hst]
    decide
  · obtain ⟨st, hst⟩ : ∃ st,
        (initMitmProxy "127.0.0.1" 8087 [] "home" emptyPC false).1 =
          Except.ok st := ⟨_, rfl⟩
    refine ⟨st, hst, ?_⟩
    rw [C9_scope_list "127.0.0.1" 8087 [] "home" emptyPC false st hst]
    decide

/-- Claim C10: an empty-string username on the resolved descriptor is
falsy, so no `upstream_auth` field is produced and the password —
whatever it is — is never consulted. -/
theorem C10_empty_username_no_auth
    (pc : ProxyConfig) (d : ProxyDescriptor) (pw : String)
    (hu : d.username = Option.some "")
    (hhttp : pc.http = Option.some d) (hhttps : pc.https = Option.none) :
    getUpstreamProxyArgs pc = Except.ok (mkArgs d pc) ∧
    (mkArgs d pc).upstream_auth = Option.none ∧
    (mkArgs { d with password := pw } pc).upstream_auth = Option.none := by
  refine ⟨?_, ?_, ?_⟩
  · simp [getUpstreamProxyArgs, hhttp, hhttps]
  · simp [mkArgs, strTruthy, hu]
  · simp [mkArgs, strTruthy, hu]

/-- A descriptor with an empty-string username and a non-empty
password, used as concrete witness input for C10. -/
def d10 : ProxyDescriptor :=
  { scheme := "http", username := Option.some "", password := "secret",
    hostport := "proxy.local:3128" }

/-- A proxy configuration carrying only `d10`. -/
def pc10 : ProxyConfig :=
  { http := Option.some d10, https := Option.none,
    custom_authorization := Option.none, no_proxy := [] }

/-- Witness for C10 at the empty-username descriptor. -/
theorem C10_witness :
    getUpstreamProxyArgs pc10 = Except.ok (mkArgs d10 pc10) ∧
    (mkArgs d10 pc10).upstream_auth = Option.none ∧
    (mkArgs { d10 with password := "other" } pc10).upstream_auth = Option.none :=
  C10_empty_username_no_auth pc10 d10 "other" rfl rfl rfl

end SeleniumWire
